import Mathlib

/-!
Verification of the Event_Booking front-end's client-side state logic.

The development shallowly embeds the pure state-transition logic of the
React front-end:

* the events-list reconciler (`EventsList` in `src/frontend/src/App.js`):
  how the locally fetched list of events is patched by `new_event` and
  `seats_updated` push events;
* the notification bar (`src/frontend/src/components/NotificationBar.js`):
  a bounded list of short-lived notifications with per-notification
  auto-removal timers, modelled as a small labelled transition system over
  discrete time;
* the checkout submit handler (`CheckoutForm.handleSubmit` in
  `PaymentForm.js`) and the booking gate (`EventCard.handleBooking`);
* the socket-connection wrapper (`SocketService` in
  `src/services/socketService.js`).

React `setState(prev => ...)` functional updates are embedded as the pure
functions applied to the previous state; `setTimeout` callbacks become
pending timers fired when modelled time advances.
-/

namespace EventBooking

/-! ## Events-list reconciler (`EventsList` in App.js) -/

/-- An event record as served by `GET /events` and rendered by `EventCard`. -/
structure Event where
  id : Nat
  title : String
  description : String
  venue : String
  date : String
  price : Nat
  total_seats : Nat
  available_seats : Nat
  created_by : String
deriving Repr, DecidableEq

/-- Payload of a `seats_updated` push event. -/
structure SeatsUpdatedData where
  event_id : Nat
  available_seats : Nat
  total_seats : Nat
deriving Repr, DecidableEq

/-- The `seats_updated` handler of `EventsList` (App.js lines 257-263):
`setEvents(prev => prev.map(event => event.id === data.event_id ?
\x7b ...event, available_seats: data.available_seats \x7d : event))`. -/
def applySeatsUpdated (data : SeatsUpdatedData) (prev : List Event) : List Event :=
  prev.map (fun event =>
    if event.id = data.event_id then
      { event with available_seats := data.available_seats }
    else
      event)

/-- The `new_event` handler of `EventsList` (App.js lines 252-254):
`setEvents(prev => [eventData, ...prev])`. -/
def applyNewEvent (eventData : Event) (prev : List Event) : List Event :=
  eventData :: prev

/-! ## Theorems about the events-list reconciler -/

/-- C1: a `seats_updated` push event whose `event_id` matches no entry of the
fetched collection leaves the collection exactly unchanged — no entry is
created, none is modified, and the handler (a total function here) cannot
throw. -/
theorem seatsUpdated_unknown_id_noop (data : SeatsUpdatedData) (prev : List Event)
    (h : ∀ e ∈ prev, e.id ≠ data.event_id) :
    applySeatsUpdated data prev = prev := by
  unfold applySeatsUpdated
  induction prev with
  | nil => rfl
  | cons e rest ih =>
    have he : e.id ≠ data.event_id := h e (List.mem_cons_self e rest)
    simp only [List.map_cons, if_neg he]
    rw [ih (fun x hx => h x (List.mem_cons_of_mem e hx))]

/-- Witness for `seatsUpdated_unknown_id_noop` at a concrete collection. -/
theorem seatsUpdated_unknown_id_noop_witness :
    applySeatsUpdated { event_id := 9, available_seats := 4, total_seats := 10 }
      [{ id := 1, title := "t", description := "d", venue := "v", date := "2024",
         price := 5, total_seats := 10, available_seats := 3, created_by := "u" }] =
      [{ id := 1, title := "t", description := "d", venue := "v", date := "2024",
         price := 5, total_seats := 10, available_seats := 3, created_by := "u" }] :=
  seatsUpdated_unknown_id_noop _ _ (by decide)

/-- C2: when some entry of the collection bears the identifier named by a
`seats_updated` event, applying the event preserves length and order, leaves
every non-matching entry unchanged, and on each matching entry replaces only
the available-seat count: every other field keeps its value. -/
theorem seatsUpdated_frame (data : SeatsUpdatedData) (prev : List Event)
    (hmem : ∃ e ∈ prev, e.id = data.event_id) :
    (applySeatsUpdated data prev).length = prev.length ∧
    (∀ (i : Nat) (e : Event), prev[i]? = some e → e.id ≠ data.event_id →
      (applySeatsUpdated data prev)[i]? = some e) ∧
    (∀ (i : Nat) (e : Event), prev[i]? = some e → e.id = data.event_id →
      ∃ e', (applySeatsUpdated data prev)[i]? = some e' ∧
        e'.available_seats = data.available_seats ∧
        e'.id = e.id ∧ e'.title = e.title ∧ e'.description = e.description ∧
        e'.venue = e.venue ∧ e'.date = e.date ∧ e'.price = e.price ∧
        e'.total_seats = e.total_seats ∧ e'.created_by = e.created_by) := by
  refine ⟨by simp [applySeatsUpdated], ?_, ?_⟩
  · intro i e hget hne
    simp [applySeatsUpdated, List.getElem?_map, hget, hne]
  · intro i e hget heq
    refine ⟨{ e with available_seats := data.available_seats }, ?_, by simp⟩
    simp [applySeatsUpdated, List.getElem?_map, hget, heq]

/-- Witness for `seatsUpdated_frame`: the spec scenario — fetch
`[(id 1, 3 seats)]`, receive `seats_updated (event_id 1, 2 seats)`. -/
theorem seatsUpdated_frame_witness :
    (applySeatsUpdated { event_id := 1, available_seats := 2, total_seats := 10 }
      [{ id := 1, title := "t", description := "d", venue := "v", date := "2024",
         price := 5, total_seats := 10, available_seats := 3, created_by := "u" }]).length = 1 ∧
    (applySeatsUpdated { event_id := 1, available_seats := 2, total_seats := 10 }
      [{ id := 1, title := "t", description := "d", venue := "v", date := "2024",
         price := 5, total_seats := 10, available_seats := 3, created_by := "u" }])[0]? =
      some { id := 1, title := "t", description := "d", venue := "v", date := "2024",
             price := 5, total_seats := 10, available_seats := 2, created_by := "u" } := by
  have h := seatsUpdated_frame
    { event_id := 1, available_seats := 2, total_seats := 10 }
    [{ id := 1, title := "t", description := "d", venue := "v", date := "2024",
       price := 5, total_seats := 10, available_seats := 3, created_by := "u" }]
    ⟨_, List.mem_singleton.mpr rfl, rfl⟩
  exact ⟨h.1, by decide⟩

/-- C3: a `new_event` push event prepends the new entity to any prior
collection (empty included), leaving the prior collection unchanged behind
it; there is no deduplication, so applying the same event twice yields the
entity twice (duplicate entries). -/
theorem newEvent_prepends (eventData : Event) (prev : List Event) :
    applyNewEvent eventData prev = eventData :: prev ∧
    applyNewEvent eventData (applyNewEvent eventData prev) =
      eventData :: eventData :: prev ∧
    2 ≤ (applyNewEvent eventData (applyNewEvent eventData prev)).count eventData := by
  refine ⟨rfl, rfl, ?_⟩
  simp [applyNewEvent, List.count_cons_self]

/-! ## Notification bar (`NotificationBar.js`)

The component keeps `notifications` (a list) and `onlineUsers` (a count).
Each socket handler builds a notification whose `id` is `Date.now()` and
calls `addNotification`, which prepends and truncates to 5 entries and
schedules a `setTimeout` removing that id 5 time units (5000 ms) later.
We model wall-clock time as a `Nat` field `now`; a burst of events arriving
in one millisecond is modelled as several steps at the same `now`, and
`Date.now()` at a step is the state's `now`. Pending `setTimeout` callbacks
are the `timers` list of (fire time, notification id) pairs; a `tick` step
advances time by one unit and runs every due callback. -/

/-- A notification as built by the socket handlers in NotificationBar.js. -/
structure Notification where
  id : Nat
  type : String
  message : String
  timestamp : Nat
deriving Repr, DecidableEq

/-- `addNotification`'s list update (NotificationBar.js line 53):
`setNotifications(prev => [notification, ...prev].slice(0, 5))`. -/
def addNotification (notification : Notification) (prev : List Notification) :
    List Notification :=
  (notification :: prev).take 5

/-- `removeNotification`'s list update (NotificationBar.js line 62):
`setNotifications(prev => prev.filter(n => n.id !== id))`. -/
def removeNotification (i : Nat) (prev : List Notification) : List Notification :=
  prev.filter (fun n => n.id ≠ i)

/-- State of the notification bar together with modelled time and the
pending `setTimeout` auto-removal callbacks. -/
structure NState where
  now : Nat
  notifications : List Notification
  onlineUsers : Nat
  timers : List (Nat × Nat)
deriving Repr, DecidableEq

/-- Payload of a `new_event` push as used by the notification handler. -/
structure NewEventData where
  title : String
  created_by : String
deriving Repr, DecidableEq

/-- Payload of a `booking_update` push. -/
structure BookingUpdateData where
  booked_by : String
  seats_booked : Nat
  event_title : String
deriving Repr, DecidableEq

/-- Message template of the `new_event` handler (NotificationBar.js line 20). -/
def newEventMessage (title created_by : String) : String :=
  "New event: " ++ title ++ " by " ++ created_by

/-- Message template of the `booking_update` handler (line 29). -/
def bookingMessage (booked_by : String) (seats_booked : Nat) (event_title : String) : String :=
  booked_by ++ " booked " ++ toString seats_booked ++ " seat(s) for " ++ event_title

/-- Message template of the `seats_updated` handler (line 38). -/
def seatsMessage (available_seats total_seats event_id : Nat) : String :=
  "Seats update: " ++ toString available_seats ++ "/" ++ toString total_seats ++
    " available for Event #" ++ toString event_id

/-- Common body of the three notification-producing handlers: build a
notification with `id: Date.now()`, run `addNotification`, and record the
`setTimeout(... , 5000)` it schedules as a pending timer for 5 units later. -/
def pushNotification (ty msg : String) (s : NState) : NState :=
  let n : Notification := { id := s.now, type := ty, message := msg, timestamp := s.now }
  { s with notifications := addNotification n s.notifications,
           timers := (s.now + 5, n.id) :: s.timers }

/-- The `new_event` handler (NotificationBar.js lines 16-23). -/
def handleNewEventNotif (d : NewEventData) (s : NState) : NState :=
  pushNotification "new_event" (newEventMessage d.title d.created_by) s

/-- The `booking_update` handler (lines 25-32). -/
def handleBookingUpdateNotif (d : BookingUpdateData) (s : NState) : NState :=
  pushNotification "booking" (bookingMessage d.booked_by d.seats_booked d.event_title) s

/-- The `seats_updated` handler (lines 34-41). -/
def handleSeatsUpdatedNotif (d : SeatsUpdatedData) (s : NState) : NState :=
  pushNotification "seats" (seatsMessage d.available_seats d.total_seats d.event_id) s

/-- The `users_online` handler (lines 12-14): `setOnlineUsers(data.count)`;
it does not touch the notification list. -/
def handleUsersOnline (count : Nat) (s : NState) : NState :=
  { s with onlineUsers := count }

/-- A user click on a notification (line 77): `removeNotification(id)`.
Timers are untouched — the code clears no `setTimeout`. -/
def dismissNotification (i : Nat) (s : NState) : NState :=
  { s with notifications := removeNotification i s.notifications }

/-- Run the due `setTimeout` callbacks: each fires `removeNotification` with
its recorded notification id. -/
def fireTimers (due : List (Nat × Nat)) (ns : List Notification) : List Notification :=
  due.foldl (fun acc t => removeNotification t.2 acc) ns

/-- Advance time by one unit, firing every timer that has come due. -/
def tickState (s : NState) : NState :=
  let now1 := s.now + 1
  { now := now1,
    notifications := fireTimers (s.timers.filter (fun t => t.1 ≤ now1)) s.notifications,
    onlineUsers := s.onlineUsers,
    timers := s.timers.filter (fun t => now1 < t.1) }

/-- One step of the notification bar: a push event of one of the four kinds
arrives, the user dismisses a notification, or time advances one unit. -/
inductive NStep : NState → NState → Prop where
  | newEvent (d : NewEventData) (s : NState) : NStep s (handleNewEventNotif d s)
  | bookingUpdate (d : BookingUpdateData) (s : NState) : NStep s (handleBookingUpdateNotif d s)
  | seatsUpdated (d : SeatsUpdatedData) (s : NState) : NStep s (handleSeatsUpdatedNotif d s)
  | usersOnline (count : Nat) (s : NState) : NStep s (handleUsersOnline count s)
  | dismiss (i : Nat) (s : NState) : NStep s (dismissNotification i s)
  | tick (s : NState) : NStep s (tickState s)

/-- The component mounts with no notifications and no pending timers. -/
def initNState : NState :=
  { now := 0, notifications := [], onlineUsers := 0, timers := [] }

/-- States the notification bar can reach from mount. -/
inductive NReachable : NState → Prop where
  | init : NReachable initNState
  | step {s t : NState} : NReachable s → NStep s t → NReachable t

/-! ### Helper lemmas about the notification model -/

theorem mem_of_mem_addNotification {n m : Notification} {l : List Notification}
    (h : m ∈ addNotification n l) : m = n ∨ m ∈ l := by
  have := List.mem_of_mem_take h
  simpa using this

theorem mem_of_mem_removeNotification {i : Nat} {m : Notification} {l : List Notification}
    (h : m ∈ removeNotification i l) : m ∈ l ∧ m.id ≠ i := by
  simpa [removeNotification] using h

theorem length_removeNotification_le (i : Nat) (l : List Notification) :
    (removeNotification i l).length ≤ l.length :=
  List.length_filter_le _ _

theorem mem_of_mem_fireTimers {due : List (Nat × Nat)} {l : List Notification}
    {m : Notification} (h : m ∈ fireTimers due l) :
    m ∈ l ∧ ∀ t ∈ due, m.id ≠ t.2 := by
  induction due generalizing l with
  | nil => simpa [fireTimers] using h
  | cons t ts ih =>
    have h' : m ∈ fireTimers ts (removeNotification t.2 l) := h
    obtain ⟨hmem, hrest⟩ := ih h'
    obtain ⟨hl, hne⟩ := mem_of_mem_removeNotification hmem
    refine ⟨hl, ?_⟩
    intro t' ht'
    rcases List.mem_cons.mp ht' with rfl | ht'
    · exact hne
    · exact hrest t' ht'

theorem length_fireTimers_le (due : List (Nat × Nat)) (l : List Notification) :
    (fireTimers due l).length ≤ l.length := by
  induction due generalizing l with
  | nil => simp [fireTimers]
  | cons t ts ih =>
    calc (fireTimers ts (removeNotification t.2 l)).length
        ≤ (removeNotification t.2 l).length := ih _
      _ ≤ l.length := length_removeNotification_le _ _

/-- Invariant tying displayed notifications to their pending auto-removal
timers: every displayed notification still has its own timer registered for
5 units after its creation time, and no pending timer is already due. -/
def TimerInv (s : NState) : Prop :=
  (∀ n ∈ s.notifications, (n.id + 5, n.id) ∈ s.timers) ∧
  (∀ t ∈ s.timers, s.now < t.1)

theorem timerInv_pushNotification {s : NState} (hs : TimerInv s) (ty msg : String) :
    TimerInv (pushNotification ty msg s) := by
  obtain ⟨h1, h2⟩ := hs
  constructor
  · intro n hn
    rcases mem_of_mem_addNotification hn with rfl | hn'
    · exact List.mem_cons_self _ _
    · exact List.mem_cons_of_mem _ (h1 n hn')
  · intro t ht
    rcases List.mem_cons.mp ht with rfl | ht'
    · simp [pushNotification]
    · exact h2 t ht'

theorem timerInv_tickState {s : NState} (hs : TimerInv s) : TimerInv (tickState s) := by
  obtain ⟨h1, h2⟩ := hs
  constructor
  · intro n hn
    obtain ⟨hmem, hnotdue⟩ := mem_of_mem_fireTimers hn
    have htimer := h1 n hmem
    have hfresh : ¬ (n.id + 5 ≤ s.now + 1) := by
      intro hle
      exact hnotdue (n.id + 5, n.id) (List.mem_filter.mpr ⟨htimer, by simpa using hle⟩) rfl
    exact List.mem_filter.mpr ⟨htimer, by simpa using Nat.lt_of_not_le hfresh⟩
  · intro t ht
    have := List.mem_filter.mp ht
    simpa using this.2

theorem timerInv_step {s t : NState} (hs : TimerInv s) (h : NStep s t) : TimerInv t := by
  cases h with
  | newEvent d s => exact timerInv_pushNotification hs _ _
  | bookingUpdate d s => exact timerInv_pushNotification hs _ _
  | seatsUpdated d s => exact timerInv_pushNotification hs _ _
  | usersOnline count s => exact ⟨hs.1, hs.2⟩
  | dismiss i s =>
    refine ⟨?_, hs.2⟩
    intro n hn
    exact hs.1 n (mem_of_mem_removeNotification hn).1
  | tick s => exact timerInv_tickState hs

theorem timerInv_reachable {s : NState} (h : NReachable s) : TimerInv s := by
  induction h with
  | init => exact ⟨by simp [initNState], by simp [initNState]⟩
  | step _ hstep ih => exact timerInv_step ih hstep

theorem length_addNotification_le_five (n : Notification) (l : List Notification) :
    (addNotification n l).length ≤ 5 := by
  simp [addNotification, List.length_take]

/-! ### Theorems about the notification bar -/

/-- C4: in every reachable state of the notification bar the displayed list
holds at most 5 entries; every step — a push event of any of the four kinds
(the three notification-producing ones and `users_online`), a timer firing,
a user dismissal — preserves the bound, whatever the burst of arrivals. -/
theorem notification_list_never_exceeds_five (s : NState) (hr : NReachable s) :
    s.notifications.length ≤ 5 := by
  induction hr with
  | init => simp [initNState]
  | step _ hstep ih =>
    cases hstep with
    | newEvent d s => exact length_addNotification_le_five _ _
    | bookingUpdate d s => exact length_addNotification_le_five _ _
    | seatsUpdated d s => exact length_addNotification_le_five _ _
    | usersOnline count s => simpa [handleUsersOnline] using ih
    | dismiss i s => exact le_trans (length_removeNotification_le _ _) ih
    | tick s => exact le_trans (length_fireTimers_le _ _) ih

/-- Witness for `notification_list_never_exceeds_five` at a concrete
reachable state (one `new_event` push after mount). -/
theorem notification_list_never_exceeds_five_witness :
    (handleNewEventNotif { title := "show", created_by := "ann" }
      initNState).notifications.length ≤ 5 :=
  notification_list_never_exceeds_five _
    (NReachable.step NReachable.init (NStep.newEvent _ _))

/-- C5: a notification carries `id = Date.now()`, its creation time, and its
own auto-removal timer fires 5 units later independently of other timers;
hence in every reachable state a displayed notification's creation time is
less than 5 units old — equivalently, once the clock reaches (creation time
+ 5) the notification is gone from the displayed list (dismissed earlier or
removed by its own timer). -/
theorem notification_absent_five_units_after_creation (s : NState) (n : Notification)
    (hr : NReachable s) (hn : n ∈ s.notifications) : s.now < n.id + 5 := by
  obtain ⟨h1, h2⟩ := timerInv_reachable hr
  simpa using h2 (n.id + 5, n.id) (h1 n hn)

/-- Witness for `notification_absent_five_units_after_creation` at a
concrete reachable state with one displayed notification. -/
theorem notification_absent_five_units_after_creation_witness :
    (handleNewEventNotif { title := "show", created_by := "ann" } initNState).now <
      ({ id := 0, type := "new_event", message := newEventMessage "show" "ann",
         timestamp := 0 } : Notification).id + 5 :=
  notification_absent_five_units_after_creation _ _
    (NReachable.step NReachable.init (NStep.newEvent _ _)) (by decide)

/-- C8 fails on the code: notification ids are `Date.now()`, so two
notifications created in the same millisecond share an id, and
`removeNotification` filters by id. In the reachable state where a
`new_event` and a `booking_update` push arrive in the same time unit, the
list holds two distinct notifications (both with id 0), and dismissing one
of them empties the list — the other notification is removed as well,
contradicting the claim that dismissal removes no other notification. -/
theorem dismissal_removes_id_sharing_notification :
    NReachable (handleBookingUpdateNotif
      { booked_by := "bob", seats_booked := 1, event_title := "gala" }
      (handleNewEventNotif { title := "gala", created_by := "ann" } initNState)) ∧
    (handleBookingUpdateNotif
      { booked_by := "bob", seats_booked := 1, event_title := "gala" }
      (handleNewEventNotif { title := "gala", created_by := "ann" }
        initNState)).notifications.length = 2 ∧
    (handleBookingUpdateNotif
      { booked_by := "bob", seats_booked := 1, event_title := "gala" }
      (handleNewEventNotif { title := "gala", created_by := "ann" }
        initNState)).notifications[0]? ≠
      (handleBookingUpdateNotif
        { booked_by := "bob", seats_booked := 1, event_title := "gala" }
        (handleNewEventNotif { title := "gala", created_by := "ann" }
          initNState)).notifications[1]? ∧
    (dismissNotification 0 (handleBookingUpdateNotif
      { booked_by := "bob", seats_booked := 1, event_title := "gala" }
      (handleNewEventNotif { title := "gala", created_by := "ann" }
        initNState))).notifications = [] := by
  refine ⟨?_, by decide, by decide, by decide⟩
  exact NReachable.step (NReachable.step NReachable.init (NStep.newEvent _ _))
    (NStep.bookingUpdate _ _)

/-- C8 amended: a user dismissal removes exactly the notifications carrying
the dismissed notification's identifier, immediately, and cancels nothing
else (pending timers and the clock are untouched); in particular, when the
displayed identifiers are pairwise distinct — the intended situation, ids
being creation times — it removes exactly the dismissed notification and
every other notification stays displayed. -/
theorem dismissal_exact_with_distinct_ids (s : NState) (n : Notification)
    (hnodup : (s.notifications.map Notification.id).Nodup)
    (hn : n ∈ s.notifications) :
    n ∉ (dismissNotification n.id s).notifications ∧
    (∀ m ∈ s.notifications, m ≠ n → m ∈ (dismissNotification n.id s).notifications) ∧
    (∀ m ∈ (dismissNotification n.id s).notifications, m ∈ s.notifications) ∧
    (dismissNotification n.id s).timers = s.timers ∧
    (dismissNotification n.id s).now = s.now := by
  refine ⟨?_, ?_, ?_, rfl, rfl⟩
  · intro h
    exact (mem_of_mem_removeNotification h).2 rfl
  · intro m hm hne
    have hid : m.id ≠ n.id := by
      intro h
      exact hne (List.inj_on_of_nodup_map hnodup hm hn h)
    exact List.mem_filter.mpr ⟨hm, by simpa using hid⟩
  · intro m hm
    exact (mem_of_mem_removeNotification hm).1

/-- Witness for `dismissal_exact_with_distinct_ids` at a concrete state with
one displayed notification. -/
theorem dismissal_exact_with_distinct_ids_witness :
    ({ id := 0, type := "new_event", message := newEventMessage "gala" "ann",
       timestamp := 0 } : Notification) ∉
      (dismissNotification 0 (handleNewEventNotif { title := "gala", created_by := "ann" }
        initNState)).notifications ∧
    (dismissNotification 0 (handleNewEventNotif { title := "gala", created_by := "ann" }
      initNState)).timers =
      (handleNewEventNotif { title := "gala", created_by := "ann" } initNState).timers := by
  have h := dismissal_exact_with_distinct_ids
    (handleNewEventNotif { title := "gala", created_by := "ann" } initNState)
    { id := 0, type := "new_event", message := newEventMessage "gala" "ann", timestamp := 0 }
    (by decide) (by decide)
  exact ⟨h.1, h.2.2.2.1⟩

/-! ## Checkout flow (`CheckoutForm.handleSubmit` in PaymentForm.js) and
the booking gate (`EventCard` in App.js)

`handleSubmit` is embedded as a function of the outcomes of its three
external calls: the `POST /create-payment-intent` request, the payment
widget's `confirmCardPayment`, and the `POST /confirm-payment/{bookingId}`
request. The embedding records which confirmation posts were issued and
which success callbacks were invoked, alongside the final `error` and
`processing` state. -/

/-- Outcome of an awaited HTTP request: either a value or the surfaced
error message (`err.response?.data?.detail || 'Payment failed'`). -/
inductive ApiResult (α : Type) where
  | ok (val : α)
  | fail (detail : String)
deriving Repr, DecidableEq

/-- Response of `POST /create-payment-intent`. -/
structure IntentData where
  client_secret : String
  booking_id : Nat
deriving Repr, DecidableEq

/-- Result object of the widget's `confirmCardPayment`: `result.error`
holds the processor's message when confirmation failed. -/
structure CardConfirmResult where
  error : Option String
deriving Repr, DecidableEq

/-- Observable outcome of one run of `handleSubmit`. -/
structure SubmitOutcome where
  error : Option String
  confirmPosts : List Nat
  successCalls : List Nat
  processing : Bool
deriving Repr, DecidableEq

/-- `CheckoutForm.handleSubmit` (PaymentForm.js lines 639-673 of the
concatenated App.js source): early return when the widget is not loaded;
otherwise create the payment intent, confirm the card with the widget, and
on widget success `POST /confirm-payment/{booking_id}` then call
`onSuccess(booking_id)`; a widget error sets `error` to the processor's
message verbatim; any thrown request error sets `error` to its detail;
`processing` is cleared in `finally`. -/
def handleSubmit (stripeReady : Bool)
    (createIntent : ApiResult IntentData)
    (confirmCardPayment : String → CardConfirmResult)
    (confirmPayment : Nat → ApiResult Unit) : SubmitOutcome :=
  if !stripeReady then
    { error := none, confirmPosts := [], successCalls := [], processing := false }
  else
    match createIntent with
    | .fail detail =>
      { error := some detail, confirmPosts := [], successCalls := [], processing := false }
    | .ok data =>
      match (confirmCardPayment data.client_secret).error with
      | some msg =>
        { error := some msg, confirmPosts := [], successCalls := [], processing := false }
      | none =>
        match confirmPayment data.booking_id with
        | .fail detail =>
          { error := some detail, confirmPosts := [data.booking_id],
            successCalls := [], processing := false }
        | .ok _ =>
          { error := none, confirmPosts := [data.booking_id],
            successCalls := [data.booking_id], processing := false }

/-- `EventCard` UI state: whether the payment form is displayed and the
inline error text. -/
structure CardState where
  showPayment : Bool
  error : Option String
deriving Repr, DecidableEq

/-- How `EventCard` reacts to a finished checkout run: its `onSuccess`
callback (App.js lines 323-327) sets `showPayment` to false; nothing in the
failure path touches `showPayment`, so the payment form stays displayed. -/
def cardAfterPayment (s : CardState) (o : SubmitOutcome) : CardState :=
  if o.successCalls.isEmpty then s else { s with showPayment := false }

/-- `EventCard.handleBooking` (App.js lines 335-341): without a user it
sets the inline error and returns; with a user it shows the payment form. -/
structure User where
  username : String
deriving Repr, DecidableEq

def handleBooking (user : Option User) (s : CardState) : CardState :=
  match user with
  | none => { s with error := some "Please login to book" }
  | some _ => { s with showPayment := true }

/-- App.js lines 389-391: the login prompt is rendered exactly when no
authenticated user is present. -/
def rendersLoginPrompt (user : Option User) : Bool :=
  user.isNone

/-- App.js lines 318-331: the payment form — the only component that issues
`POST /create-payment-intent` — is rendered exactly when `showPayment`. -/
def rendersPaymentForm (s : CardState) : Bool :=
  s.showPayment

/-! ### Theorems about the checkout flow -/

/-- C6 fails on the code in one respect: after a failed widget confirmation
the flow does NOT return to seat-selection — `showPayment` is never reset on
the failure path, so the payment form stays displayed (the user retries from
the form or cancels). Concretely: the widget declines the card, the error is
recorded, no confirmation is posted, no success callback runs, and the
card's state still shows the payment form. -/
theorem payment_failure_stays_on_payment_form :
    (handleSubmit true (.ok { client_secret := "sec", booking_id := 42 })
      (fun _ => { error := some "Your card was declined." })
      (fun _ => .ok ())).error = some "Your card was declined." ∧
    (cardAfterPayment { showPayment := true, error := none }
      (handleSubmit true (.ok { client_secret := "sec", booking_id := 42 })
        (fun _ => { error := some "Your card was declined." })
        (fun _ => .ok ()))).showPayment = true ∧
    rendersPaymentForm (cardAfterPayment { showPayment := true, error := none }
      (handleSubmit true (.ok { client_secret := "sec", booking_id := 42 })
        (fun _ => { error := some "Your card was declined." })
        (fun _ => .ok ()))) = true := by
  refine ⟨rfl, rfl, rfl⟩

/-- C6 amended: if the widget's card confirmation fails, the
processor-provided error message is surfaced verbatim, no
`POST /confirm-payment/{bookingId}` is issued, the success callback is not
invoked and no booking is declared confirmed, and control returns to the
user with `processing` cleared at the still-displayed payment form for
retry or cancel. -/
theorem payment_widget_failure_handling (intent : IntentData) (msg : String)
    (confirmCardPayment : String → CardConfirmResult)
    (confirmPayment : Nat → ApiResult Unit)
    (hw : confirmCardPayment intent.client_secret = { error := some msg }) :
    (handleSubmit true (.ok intent) confirmCardPayment confirmPayment).error = some msg ∧
    (handleSubmit true (.ok intent) confirmCardPayment confirmPayment).confirmPosts = [] ∧
    (handleSubmit true (.ok intent) confirmCardPayment confirmPayment).successCalls = [] ∧
    (handleSubmit true (.ok intent) confirmCardPayment confirmPayment).processing = false ∧
    (∀ s : CardState,
      (cardAfterPayment s (handleSubmit true (.ok intent) confirmCardPayment
        confirmPayment)).showPayment = s.showPayment) := by
  refine ⟨?_, ?_, ?_, ?_, ?_⟩ <;>
    simp [handleSubmit, hw, cardAfterPayment]

/-- Witness for `payment_widget_failure_handling` at a concrete declined
card. -/
theorem payment_widget_failure_handling_witness :
    (handleSubmit true (.ok { client_secret := "k", booking_id := 7 })
      (fun _ => { error := some "declined" }) (fun _ => .ok ())).error = some "declined" ∧
    (handleSubmit true (.ok { client_secret := "k", booking_id := 7 })
      (fun _ => { error := some "declined" }) (fun _ => .ok ())).confirmPosts = [] := by
  have h := payment_widget_failure_handling { client_secret := "k", booking_id := 7 }
    "declined" (fun _ => { error := some "declined" }) (fun _ => .ok ()) rfl
  exact ⟨h.1, h.2.1⟩

/-- C7: with no authenticated session, `handleBooking` shows the payment
form only if it was already shown — starting from the form hidden it stays
hidden, so the flow never reaches payment-pending and the payment form (the
only issuer of the payment-intention request) is not rendered; the inline
error is set and the login prompt is rendered instead. -/
theorem unauthenticated_booking_blocked (s : CardState) (h : s.showPayment = false) :
    (handleBooking none s).showPayment = false ∧
    rendersPaymentForm (handleBooking none s) = false ∧
    (handleBooking none s).error = some "Please login to book" ∧
    rendersLoginPrompt none = true := by
  simp [handleBooking, rendersPaymentForm, rendersLoginPrompt, h]

/-- Witness for `unauthenticated_booking_blocked` at the initial card
state. -/
theorem unauthenticated_booking_blocked_witness :
    (handleBooking none { showPayment := false, error := none }).showPayment = false ∧
    rendersPaymentForm (handleBooking none { showPayment := false, error := none }) = false ∧
    (handleBooking none { showPayment := false, error := none }).error =
      some "Please login to book" ∧
    rendersLoginPrompt none = true :=
  unauthenticated_booking_blocked { showPayment := false, error := none } rfl

/-! ## Socket connection wrapper (`SocketService` in socketService.js)

The service holds `socket`, either `null` or the live socket.io client.
`connect()` creates the client only when `socket` is null, registering the
three internal logging handlers, and always returns the current client.
`on`/`off`/`authenticate`/`join`/`leave` guard on `socket` being non-null
and otherwise do nothing. A handler is a value: the three internal logging
closures, or an application callback identified by a token. -/

/-- A handler registered on the socket: one of the three logging closures
installed by `connect()`, or an application callback. -/
inductive Handler where
  | internalConnect
  | internalDisconnect
  | internalError
  | user (token : Nat)
deriving Repr, DecidableEq

/-- The underlying socket.io client: an identity for the underlying
connection plus its registered (event name, handler) pairs in registration
order. -/
structure Socket where
  connId : Nat
  handlers : List (String × Handler)
deriving Repr, DecidableEq

/-- The client created by `io(...)` in `connect()`, after the three
`socket.on` registrations of lines 17-27 of socketService.js. -/
def mkSocket (fresh : Nat) : Socket :=
  { connId := fresh,
    handlers := [("connect", Handler.internalConnect),
                 ("disconnect", Handler.internalDisconnect),
                 ("error", Handler.internalError)] }

/-- The service singleton's state: `this.socket`, null or live. -/
structure SocketService where
  socket : Option Socket
deriving Repr, DecidableEq

/-- `SocketService.connect` (socketService.js lines 10-30): create the
client only when `this.socket` is null; return `this.socket`. `fresh`
names the identity the transport would assign to a newly opened
connection. -/
def SocketService.connect (fresh : Nat) (s : SocketService) : SocketService × Socket :=
  match s.socket with
  | some sock => (s, sock)
  | none => ({ socket := some (mkSocket fresh) }, mkSocket fresh)

/-- `SocketService.on` (lines 57-61): `if (this.socket) this.socket.on(...)`;
socket.io's `on` appends the listener. -/
def SocketService.on (ev : String) (cb : Handler) (s : SocketService) : SocketService :=
  match s.socket with
  | none => s
  | some sock =>
    { socket := some { sock with handlers := sock.handlers ++ [(ev, cb)] } }

/-- `SocketService.off` (lines 63-67): `if (this.socket) this.socket.off(...)`;
socket.io's `off` removes the matching listeners of the event, all of them
when no callback is given. -/
def SocketService.off (ev : String) (cb : Option Handler) (s : SocketService) :
    SocketService :=
  match s.socket with
  | none => s
  | some sock =>
    let keep : String × Handler → Bool :=
      fun p => decide (¬ (p.1 = ev ∧ (cb = none ∨ cb = some p.2)))
    { socket := some { sock with handlers := sock.handlers.filter keep } }

/-- `SocketService.disconnect` (lines 50-55): tear down the client when one
exists; afterwards `this.socket` is null either way. -/
def SocketService.disconnect (s : SocketService) : SocketService :=
  match s.socket with
  | none => s
  | some _ => { socket := none }

/-- The handlers a socket invokes when an inbound event named `ev`
arrives: the registered handlers of that name, in registration order. -/
def invokedHandlers (ev : String) (sock : Socket) : List Handler :=
  (sock.handlers.filter (fun p => p.1 = ev)).map (fun p => p.2)

/-- The service starts with no connection. -/
def initSocketService : SocketService := { socket := none }

/-! ### Theorems about the socket service -/

/-- C9: `connect()` is idempotent — when a connection already exists it
creates no second connection and changes nothing: the service state,
the existing connection (identity and registered handlers included) are
returned unchanged. Since the service holds at most one `socket`, at most
one underlying connection exists at any time. -/
theorem connect_idempotent (fresh : Nat) (s : SocketService) (sock : Socket)
    (h : s.socket = some sock) :
    SocketService.connect fresh s = (s, sock) := by
  simp [SocketService.connect, h]

/-- Witness for `connect_idempotent`: connecting twice from the initial
state returns the first connection unchanged. -/
theorem connect_idempotent_witness :
    SocketService.connect 2 (SocketService.connect 1 initSocketService).1 =
      ((SocketService.connect 1 initSocketService).1, mkSocket 1) :=
  connect_idempotent 2 _ (mkSocket 1) rfl

/-- C10: while no connection object exists (before the first `connect()`,
or after `disconnect()`, which always leaves `socket` null), `on` and `off`
are silent no-ops — nothing is registered or removed and (being total
functions) nothing is thrown — and a callback subscribed in that state is
never invoked: a later `connect()` builds a fresh socket carrying only the
three internal logging handlers, so no inbound event ever invokes the
application callback. -/
theorem subscribe_while_disconnected_noop (ev ev2 : String) (cb : Handler)
    (cb2 : Option Handler) (token fresh : Nat) (s : SocketService)
    (h : s.socket = none) :
    SocketService.on ev cb s = s ∧
    SocketService.off ev cb2 s = s ∧
    (∀ t : SocketService, (SocketService.disconnect t).socket = none) ∧
    Handler.user token ∉ invokedHandlers ev2
      (SocketService.connect fresh (SocketService.on ev (Handler.user token) s)).2 := by
  refine ⟨?_, ?_, ?_, ?_⟩
  · simp [SocketService.on, h]
  · simp [SocketService.off, h]
  · intro t
    cases ht : t.socket <;> simp [SocketService.disconnect, ht]
  · have hon : SocketService.on ev (Handler.user token) s = s := by
      simp [SocketService.on, h]
    rw [hon]
    simp only [SocketService.connect, h]
    intro hmem
    simp only [invokedHandlers, mkSocket, List.mem_map, List.mem_filter,
      List.mem_cons, List.not_mem_nil, or_false] at hmem
    obtain ⟨p, ⟨hp, _⟩, hp2⟩ := hmem
    rcases hp with h1 | h1 | h1 <;> (subst h1; exact Handler.noConfusion hp2)

/-- Witness for `subscribe_while_disconnected_noop` at the initial
(pre-connect) service state. -/
theorem subscribe_while_disconnected_noop_witness :
    SocketService.on "seats_updated" (Handler.user 9) initSocketService =
      initSocketService ∧
    Handler.user 9 ∉ invokedHandlers "seats_updated"
      (SocketService.connect 1 (SocketService.on "seats_updated" (Handler.user 9)
        initSocketService)).2 := by
  have h := subscribe_while_disconnected_noop "seats_updated" "seats_updated"
    (Handler.user 9) none 9 1 initSocketService rfl
  exact ⟨h.1, h.2.2.2⟩

end EventBooking
